import Mathlib

/-!
Shallow embedding of `src/app/app.py` (a Flask + MySQL task-tracking API).

The mutable MySQL database is modelled as an explicit `Store` value (a list of
user rows and a list of task rows); each Flask request handler becomes a pure
function from the store (and the request data) to a response, a possibly
updated store, and a record of connection-pool usage.  SQL `NULL` is `Option`,
`DATE` values are day numbers (`Nat`), timestamps are `Nat`.

Fault injection: handlers that contain a `try`/`except` block around database
work take a `queryRaises : Bool` argument that makes the statement execution
raise, so the `except Exception` paths of the Python code are reachable in the
model.  `connAvail : Bool` models `get_db_connection()` returning a connection
(`true`) or `None` (`false`).
-/

namespace TaskApp

/-- A JSON value occurring at a string-typed field of a request body:
either JSON `null` or a JSON string. -/
inductive JStr where
  | null
  | str (s : String)
deriving DecidableEq, Repr

/-- A JSON value occurring at the `due_date` field of a request body:
JSON `null`, the empty string `""`, or a well-formed date string, represented
by the day number it denotes. -/
inductive JDate where
  | null
  | emptyStr
  | date (d : Nat)
deriving DecidableEq, Repr

/-- Python truthiness of a `due_date` value: `None` and `""` are falsy. -/
def JDate.truthy : JDate → Bool
  | .date _ => true
  | _ => false

/-- The SQL `DATE` (or `NULL`) that binding this JSON value stores,
after the handler's `data['due_date'] if data['due_date'] else None`
falsy-to-`None` coercion. -/
def JDate.val : JDate → Option Nat
  | .date d => some d
  | _ => none

/-- The SQL value (string or `NULL`) a `JStr` binds as a parameter. -/
def JStr.toSql : JStr → Option String
  | .null => none
  | .str s => some s

/-- A row of the `users` table (schema fields used by `app.py`). -/
structure User where
  id : Nat
  username : String
  password_hash : String
  first_name : String
  last_name : String
deriving DecidableEq, Repr

/-- A row of the `tasks` table.

Modelled from the spec: the `tasks` schema is not under `src/` (only
`app.py` is), so column nullability follows the spec's data model —
`title`, `description`, `status`, `priority` are non-null strings
(`title` required, `description` defaults to empty, `status`/`priority`
are enums with defaults) and `due_date` is a nullable `DATE`. -/
structure Task where
  id : Nat
  user_id : Nat
  title : String
  description : String
  status : String
  priority : String
  due_date : Option Nat
  created_at : Nat
  updated_at : Nat
deriving DecidableEq, Repr

/-- The relational store: the `users` and `tasks` tables. -/
structure Store where
  users : List User
  tasks : List Task
deriving DecidableEq, Repr

/-- A row of the `SELECT ... FROM tasks t JOIN users u ON t.user_id = u.id`
query in `get_tasks` — exactly the selected columns. -/
structure TaskView where
  id : Nat
  title : String
  description : String
  status : String
  priority : String
  due_date : Option Nat
  created_at : Nat
  updated_at : Nat
  username : String
  first_name : String
  last_name : String
deriving DecidableEq, Repr

/-- Connection-pool bookkeeping for one request: whether a pooled
connection was acquired, and whether it was released (`conn.close()`)
before the handler returned. -/
structure ConnUse where
  acquired : Bool
  released : Bool
deriving DecidableEq, Repr

/-- No connection was ever taken from the pool. -/
def ConnUse.noConn : ConnUse := ⟨false, false⟩

/-- The connection was acquired and closed (returned to the pool). -/
def ConnUse.closed : ConnUse := ⟨true, true⟩

/-- The connection was acquired and never closed. -/
def ConnUse.leaked : ConnUse := ⟨true, false⟩

/-- Per-request task statistics, as assembled by `get_stats`. -/
structure StatsOut where
  status_counts : List (String × Nat)
  priority_counts : List (String × Nat)
  overdue_count : Nat
  total_tasks : Nat
deriving DecidableEq, Repr

/-- An API response: `jsonify(...)` payload plus HTTP status. -/
inductive Resp where
  | okMsg (msg : String)
  | okList (tasks : List TaskView)
  | okStats (s : StatsOut)
  | created (id : Nat) (msg : String) (title : String)
  | clientErr (status : Nat) (msg : String)
  | serverErr (msg : String)
deriving DecidableEq, Repr

/-- The HTTP status code of a response. -/
def Resp.status : Resp → Nat
  | .okMsg _ => 200
  | .okList _ => 200
  | .okStats _ => 200
  | .created _ _ _ => 201
  | .clientErr s _ => s
  | .serverErr _ => 500

/-- The tasks rows of one user: `WHERE t.user_id = %s` / `WHERE user_id = %s`. -/
def tasksOf (st : Store) (uid : Nat) : List Task :=
  st.tasks.filter (fun t => t.user_id == uid)

/-- One joined output row of the `get_tasks` query. -/
def mkView (t : Task) (u : User) : TaskView :=
  ⟨t.id, t.title, t.description, t.status, t.priority, t.due_date,
   t.created_at, t.updated_at, u.username, u.first_name, u.last_name⟩

/-- The result set of the `get_tasks` SELECT: user-scoped tasks joined with
`users` on `t.user_id = u.id`, `ORDER BY t.updated_at DESC`. -/
def list_for_user (st : Store) (uid : Nat) : List TaskView :=
  ((tasksOf st uid).flatMap (fun t =>
      (st.users.filter (fun u => u.id == t.user_id)).map (mkView t))).mergeSort
    (fun a b => b.updated_at ≤ a.updated_at)

/-- `GET /api/tasks`: list the session user's tasks.
Returns the response and the connection usage of the request. -/
def get_tasks (st : Store) (uid : Nat) (connAvail queryRaises : Bool) :
    Resp × ConnUse :=
  if !connAvail then
    (.serverErr "Database connection failed", .noConn)
  else if queryRaises then
    -- `except Exception as e: return jsonify({'error': str(e)}), 500`
    -- with the connection still checked out (no close on this path).
    (.serverErr "database error", .leaked)
  else
    (.okList (list_for_user st uid), .closed)

/-- A `POST /api/tasks` JSON body; `none` at a field means the key is absent. -/
structure CreateData where
  title : Option JStr := none
  description : Option JStr := none
  priority : Option JStr := none
  due_date : Option JDate := none
deriving DecidableEq, Repr

/-- Truthiness of `data.get('title')`: key present with a non-empty string. -/
def titleTruthy : Option JStr → Bool
  | some (.str s) => s != ""
  | _ => false

/-- `cursor.lastrowid` for the INSERT: a task id fresh for the store. -/
def freshId (st : Store) : Nat :=
  (st.tasks.map Task.id).foldr max 0 + 1

/-- `POST /api/tasks`: create a task for the session user.
`data` is `request.get_json()` (`none` when the body is absent/unparseable);
`now` is the store's current timestamp, `nd` the current date.
`status` is not in the INSERT column list; the store supplies its default
(modelled from the spec: the initial state is `pending`), and the store
rejects a `NULL` bound to the non-null `description`/`priority` columns,
which surfaces as an exception (500, connection not closed). -/
def create_task (st : Store) (uid : Nat) (data : Option CreateData)
    (connAvail queryRaises : Bool) (now : Nat) : Resp × Store × ConnUse :=
  match data with
  | none => (.clientErr 400 "Title is required", st, .noConn)
  | some d =>
    if !titleTruthy d.title then
      (.clientErr 400 "Title is required", st, .noConn)
    else
      if !connAvail then
        (.serverErr "Database connection failed", st, .noConn)
      else if queryRaises then
        (.serverErr "database error", st, .leaked)
      else
        let title := match d.title with
          | some (.str s) => s
          | _ => ""
        let desc? := (d.description.getD (.str "")).toSql
        let prio? := (d.priority.getD (.str "medium")).toSql
        let due := match d.due_date with
          | none => none
          | some v => v.val
        match desc?, prio? with
        | some desc, some prio =>
          let tid := freshId st
          let t : Task := ⟨tid, uid, title, desc, "pending", prio, due, now, now⟩
          (.created tid "Task created successfully" title,
            { st with tasks := st.tasks ++ [t] }, .closed)
        | _, _ =>
          (.serverErr "database error", st, .leaked)

/-- A `PUT /api/tasks/<id>` JSON body; `none` at a field means the key is
absent from the dictionary. -/
structure UpdateData where
  title : Option JStr := none
  description : Option JStr := none
  status : Option JStr := none
  priority : Option JStr := none
  due_date : Option JDate := none
deriving DecidableEq, Repr

/-- `update_fields` ends up empty: no recognised key is present. -/
def UpdateData.isEmpty (d : UpdateData) : Bool :=
  d.title == none && d.description == none && d.status == none &&
    d.priority == none && d.due_date == none

/-- The UPDATE statement binds `NULL` into a non-null column
(`title`/`description`/`status`/`priority` present with JSON `null`);
the store rejects the statement.  (`due_date` is nullable, so a null
there is fine.) -/
def UpdateData.bindsNull (d : UpdateData) : Bool :=
  d.title == some .null || d.description == some .null ||
    d.status == some .null || d.priority == some .null

/-- Apply the SET clauses of the built UPDATE statement to one row;
keys absent from the body produce no SET clause, so those columns keep
their value.  `updated_at` advances (modelled from the spec: the store
maintains `updated_at` on every mutation). -/
def applyFields (d : UpdateData) (now : Nat) (t : Task) : Task :=
  { t with
    title := match d.title with
      | some (.str s) => s
      | _ => t.title
    description := match d.description with
      | some (.str s) => s
      | _ => t.description
    status := match d.status with
      | some (.str s) => s
      | _ => t.status
    priority := match d.priority with
      | some (.str s) => s
      | _ => t.priority
    due_date := match d.due_date with
      | none => t.due_date
      | some v => v.val
    updated_at := now }

/-- `PUT /api/tasks/<task_id>`: partial update.  The ownership check runs
`SELECT id FROM tasks WHERE id = %s AND user_id = %s`; the UPDATE itself is
`UPDATE tasks SET ... WHERE id = %s` (no `user_id` in its WHERE clause, as in
the source).  Accessing a `None` body (`'title' in data`) raises a
`TypeError`, caught by the `except` block (500, connection not closed). -/
def update_task (st : Store) (uid tid : Nat) (data : Option UpdateData)
    (connAvail : Bool) (now : Nat) : Resp × Store × ConnUse :=
  if !connAvail then
    (.serverErr "Database connection failed", st, .noConn)
  else if !(st.tasks.any (fun t => t.id == tid && t.user_id == uid)) then
    (.clientErr 404 "Task not found", st, .closed)
  else
    match data with
    | none =>
      (.serverErr "argument of type 'NoneType' is not iterable", st, .leaked)
    | some d =>
      if d.isEmpty then
        (.okMsg "Task updated successfully", st, .closed)
      else if d.bindsNull then
        (.serverErr "database error", st, .leaked)
      else
        (.okMsg "Task updated successfully",
          { st with tasks := st.tasks.map (fun t =>
              if t.id == tid then applyFields d now t else t) },
          .closed)

/-- `DELETE /api/tasks/<task_id>`: `DELETE FROM tasks WHERE id = %s AND
user_id = %s`; 404 when `cursor.rowcount == 0`, else 200. -/
def delete_task (st : Store) (uid tid : Nat) (connAvail : Bool) :
    Resp × Store × ConnUse :=
  if !connAvail then
    (.serverErr "Database connection failed", st, .noConn)
  else
    let rowcount :=
      (st.tasks.filter (fun t => t.id == tid && t.user_id == uid)).length
    let st' :=
      { st with tasks := st.tasks.filter (fun t =>
          !(t.id == tid && t.user_id == uid)) }
    if rowcount == 0 then
      (.clientErr 404 "Task not found", st', .closed)
    else
      (.okMsg "Task deleted successfully", st', .closed)

/-- `SELECT status, COUNT(*) ... GROUP BY status` for one user. -/
def statusCounts (st : Store) (uid : Nat) : List (String × Nat) :=
  let sts := (tasksOf st uid).map Task.status
  sts.dedup.map (fun s => (s, sts.count s))

/-- `SELECT priority, COUNT(*) ... GROUP BY priority` for one user. -/
def priorityCounts (st : Store) (uid : Nat) : List (String × Nat) :=
  let ps := (tasksOf st uid).map Task.priority
  ps.dedup.map (fun p => (p, ps.count p))

/-- `SELECT COUNT(*) ... WHERE user_id = %s AND due_date < CURDATE() AND
status != 'completed'`; a SQL `NULL` `due_date` never satisfies the `<`. -/
def overdueCount (st : Store) (uid today : Nat) : Nat :=
  ((tasksOf st uid).filter (fun t =>
      (match t.due_date with
        | some d => decide (d < today)
        | none => false) &&
      t.status != "completed")).length

/-- `GET /api/stats`: per-user statistics; `today` is the store's
`CURDATE()`.  The three aggregate queries run inside the handler's `try`
block; the `except` path returns 500 without closing the acquired
connection. -/
def get_stats (st : Store) (uid today : Nat) (connAvail queryRaises : Bool) :
    Resp × ConnUse :=
  if !connAvail then
    (.serverErr "Database connection failed", .noConn)
  else if queryRaises then
    (.serverErr "database error", .leaked)
  else
    (.okStats
      ⟨statusCounts st uid, priorityCounts st uid, overdueCount st uid today,
        ((statusCounts st uid).map Prod.snd).sum⟩, .closed)

/-- `GET /health`: verify store connectivity with a `SELECT 1` round trip.
The response is modelled as the HTTP status code together with the JSON
`database` field (the timestamp, version and latency fields are real-time
presentation data); on the `except` path the handler reports unhealthy (503)
without closing the acquired connection. -/
def health_check (connAvail queryRaises : Bool) : (Nat × String) × ConnUse :=
  if !connAvail then
    ((503, "disconnected"), .noConn)
  else if queryRaises then
    ((503, "error"), .leaked)
  else
    ((200, "connected"), .closed)

/-- Python `str.strip()`: drop leading and trailing whitespace. -/
def pyStrip (s : String) : String :=
  String.mk (((s.toList.dropWhile Char.isWhitespace).reverse.dropWhile
    Char.isWhitespace).reverse)

/-- `cursor.fetchone()` of `SELECT ... FROM users WHERE username = %s`. -/
def findUser (st : Store) (uname : String) : Option User :=
  (st.users.filter (fun u => u.username == uname)).head?

/-- The observable outcome of a `POST /login` request: either the login page
is re-rendered (with an optional flashed message and category), or the
session is set and the client is redirected to the dashboard. -/
inductive LoginResp where
  | renderLogin (flashMsg : Option (String × String))
  | redirectDashboard (uid : Nat) (username first_name : String)
deriving DecidableEq, Repr

/-- `POST /login`: look the username up, check the password with
`bcrypt.checkpw` (passed in as `checkpw`), and either set the session and
redirect, or flash the generic failure message.  `username`/`password` are
the raw form fields.  The SELECT and both `close()` calls run before the
password branch; a raising query hits the `except` path, which flashes the
generic login error and re-renders without closing the connection. -/
def login (st : Store) (checkpw : String → String → Bool)
    (username password : String) (connAvail queryRaises : Bool) :
    LoginResp × ConnUse :=
  let uname := pyStrip username
  if uname == "" || password == "" then
    (.renderLogin (some ("Please enter both username and password", "error")),
      .noConn)
  else if !connAvail then
    (.renderLogin (some ("Database connection error", "error")), .noConn)
  else if queryRaises then
    (.renderLogin (some ("An error occurred during login", "error")), .leaked)
  else
    match findUser st uname with
    | some u =>
      if checkpw password u.password_hash then
        (.redirectDashboard u.id u.username u.first_name, .closed)
      else
        (.renderLogin (some ("Invalid username or password", "error")),
          .closed)
    | none =>
      (.renderLogin (some ("Invalid username or password", "error")), .closed)

end TaskApp

namespace TaskApp

/-! ## Helper lemmas -/

/-- The ownership check of `update_task` succeeds exactly when the store has a
task with the given id owned by the given user. -/
theorem any_owned_iff (st : Store) (uid tid : Nat) :
    (st.tasks.any (fun t => t.id == tid && t.user_id == uid)) = true ↔
      ∃ t ∈ st.tasks, t.id = tid ∧ t.user_id = uid := by
  simp [List.any_eq_true]

/-- The rowcount of the DELETE statement is zero exactly when no task row
matches the `(task_id, user_id)` pair. -/
theorem rowcount_zero_iff (st : Store) (uid tid : Nat) :
    ((st.tasks.filter (fun t => t.id == tid && t.user_id == uid)).length = 0) ↔
      ¬ ∃ t ∈ st.tasks, t.id = tid ∧ t.user_id = uid := by
  simp [List.length_eq_zero, List.filter_eq_nil_iff]

/-! ## C4: create with a missing or empty title -/

/-- C4: a `POST /api/tasks` request whose body is absent, lacks a `title`
key, or carries an empty-string title returns 400 "Title is required" and
leaves the store unchanged (no row is inserted). -/
theorem c4_create_missing_or_empty_title (st : Store) (uid : Nat)
    (data : Option CreateData) (c q : Bool) (now : Nat)
    (h : data = none ∨
      ∃ d, data = some d ∧ (d.title = none ∨ d.title = some (.str ""))) :
    (create_task st uid data c q now).1 = .clientErr 400 "Title is required" ∧
    (create_task st uid data c q now).2.1 = st := by
  rcases h with h | ⟨d, hd, ht⟩
  · subst h
    exact ⟨rfl, rfl⟩
  · subst hd
    rcases ht with ht | ht <;> simp [create_task, titleTruthy, ht]

/-- Witness for C4 at a concrete input: an empty-title body against a
one-task store. -/
theorem c4_create_missing_or_empty_title_witness :
    (create_task ⟨[], [⟨1, 1, "t", "", "pending", "medium", none, 0, 0⟩]⟩ 1
        (some { title := some (.str "") }) true false 5).1 =
      .clientErr 400 "Title is required" ∧
    (create_task ⟨[], [⟨1, 1, "t", "", "pending", "medium", none, 0, 0⟩]⟩ 1
        (some { title := some (.str "") }) true false 5).2.1 =
      ⟨[], [⟨1, 1, "t", "", "pending", "medium", none, 0, 0⟩]⟩ :=
  c4_create_missing_or_empty_title _ 1 _ true false 5
    (Or.inr ⟨_, rfl, Or.inr rfl⟩)

/-! ## C5: delete 404 iff zero rows matched -/

/-- C5: `DELETE /api/tasks/<id>` returns 404 "Task not found" exactly when no
task row matches the `(task_id, user_id)` pair — whether the task does not
exist at all or is owned by a different user; when a row matches, the delete
returns 200 "Task deleted successfully"; and any two requests with zero
matched rows (for instance, a nonexistent task and another user's task)
produce the identical response, so the two causes are indistinguishable. -/
theorem c5_delete_404_iff_zero_rows (st : Store) (uid tid : Nat) :
    ((delete_task st uid tid true).1 = .clientErr 404 "Task not found" ↔
      ¬ ∃ t ∈ st.tasks, t.id = tid ∧ t.user_id = uid) ∧
    ((∃ t ∈ st.tasks, t.id = tid ∧ t.user_id = uid) →
      (delete_task st uid tid true).1 = .okMsg "Task deleted successfully") ∧
    (∀ (st2 : Store) (uid2 tid2 : Nat),
      (¬ ∃ t ∈ st.tasks, t.id = tid ∧ t.user_id = uid) →
      (¬ ∃ t ∈ st2.tasks, t.id = tid2 ∧ t.user_id = uid2) →
      (delete_task st uid tid true).1 = (delete_task st2 uid2 tid2 true).1) := by
  have key : ∀ (s : Store) (u i : Nat),
      (delete_task s u i true).1 =
        (if ((s.tasks.filter (fun t => t.id == i && t.user_id == u)).length
              == 0) = true
          then Resp.clientErr 404 "Task not found"
          else Resp.okMsg "Task deleted successfully") := by
    intro s u i
    simp only [delete_task, Bool.not_true, Bool.false_eq_true, if_false]
    split <;> rfl
  refine ⟨?_, ?_, ?_⟩
  · rw [key]
    split
    · rename_i h
      simp only [beq_iff_eq] at h
      rw [rowcount_zero_iff] at h
      simp [h]
    · rename_i h
      simp only [beq_iff_eq] at h
      constructor
      · intro hc
        exact absurd hc (by intro hc; cases hc)
      · intro hne
        exact absurd ((rowcount_zero_iff st uid tid).mpr hne) h
  · intro hex
    rw [key]
    split
    · rename_i h
      simp only [beq_iff_eq] at h
      exact absurd hex ((rowcount_zero_iff st uid tid).mp h)
    · rfl
  · intro st2 uid2 tid2 h1 h2
    rw [key, key]
    rw [if_pos (by simpa using (rowcount_zero_iff st uid tid).mpr h1),
      if_pos (by simpa using (rowcount_zero_iff st2 uid2 tid2).mpr h2)]

/-- Witness for C5 at a concrete input: a store holding one task of user 1;
deleting it as user 1 matches a row, and deleting a nonexistent id as user 1
matches none and is indistinguishable from deleting user 1's task as user 2. -/
theorem c5_delete_404_iff_zero_rows_witness :
    ((delete_task ⟨[], [⟨3, 1, "t", "", "pending", "medium", none, 0, 0⟩]⟩ 1 9
        true).1 = .clientErr 404 "Task not found" ↔
      ¬ ∃ t ∈ [Task.mk 3 1 "t" "" "pending" "medium" none 0 0],
        t.id = 9 ∧ t.user_id = 1) ∧
    ((∃ t ∈ [Task.mk 3 1 "t" "" "pending" "medium" none 0 0],
        t.id = 9 ∧ t.user_id = 1) →
      (delete_task ⟨[], [⟨3, 1, "t", "", "pending", "medium", none, 0, 0⟩]⟩ 1 9
        true).1 = .okMsg "Task deleted successfully") ∧
    (∀ (st2 : Store) (uid2 tid2 : Nat),
      (¬ ∃ t ∈ [Task.mk 3 1 "t" "" "pending" "medium" none 0 0],
        t.id = 9 ∧ t.user_id = 1) →
      (¬ ∃ t ∈ st2.tasks, t.id = tid2 ∧ t.user_id = uid2) →
      (delete_task ⟨[], [⟨3, 1, "t", "", "pending", "medium", none, 0, 0⟩]⟩ 1 9
          true).1 = (delete_task st2 uid2 tid2 true).1) :=
  c5_delete_404_iff_zero_rows
    ⟨[], [⟨3, 1, "t", "", "pending", "medium", none, 0, 0⟩]⟩ 1 9

/-! ## C10: update with an absent/unparseable body -/

/-- C10: an authenticated `PUT /api/tasks/<id>` whose parsed body is `None`
returns 404 when the named task is not owned by the session user; when the
task is owned, the `'title' in data` access raises a `TypeError` and the
handler returns 500 (leaving the store unchanged); in neither case is a 400
validation response produced. -/
theorem c10_update_none_body (st : Store) (uid tid now : Nat) :
    (¬ (∃ t ∈ st.tasks, t.id = tid ∧ t.user_id = uid) →
      (update_task st uid tid none true now).1 =
        .clientErr 404 "Task not found") ∧
    ((∃ t ∈ st.tasks, t.id = tid ∧ t.user_id = uid) →
      (update_task st uid tid none true now).1 =
        .serverErr "argument of type 'NoneType' is not iterable" ∧
      (update_task st uid tid none true now).2.1 = st) ∧
    (update_task st uid tid none true now).1.status ≠ 400 := by
  refine ⟨?_, ?_, ?_⟩
  · intro hno
    have hany : (st.tasks.any (fun t => t.id == tid && t.user_id == uid)) = false := by
      rw [← Bool.not_eq_true]
      intro hc
      exact hno ((any_owned_iff st uid tid).mp hc)
    simp [update_task, hany]
  · intro hex
    have hany : (st.tasks.any (fun t => t.id == tid && t.user_id == uid)) = true :=
      (any_owned_iff st uid tid).mpr hex
    simp [update_task, hany]
  · by_cases hany : (st.tasks.any (fun t => t.id == tid && t.user_id == uid)) = true
    · simp [update_task, hany, Resp.status]
    · rw [Bool.not_eq_true] at hany
      simp [update_task, hany, Resp.status]

/-- Witness for C10 at concrete inputs: the 404 branch on an empty store. -/
theorem c10_update_none_body_witness :
    (¬ (∃ t ∈ ([] : List Task), t.id = 7 ∧ t.user_id = 1) →
      (update_task ⟨[], []⟩ 1 7 none true 0).1 =
        .clientErr 404 "Task not found") ∧
    ((∃ t ∈ ([] : List Task), t.id = 7 ∧ t.user_id = 1) →
      (update_task ⟨[], []⟩ 1 7 none true 0).1 =
        .serverErr "argument of type 'NoneType' is not iterable" ∧
      (update_task ⟨[], []⟩ 1 7 none true 0).2.1 = ⟨[], []⟩) ∧
    (update_task ⟨[], []⟩ 1 7 none true 0).1.status ≠ 400 :=
  c10_update_none_body ⟨[], []⟩ 1 7 0

/-! ## C2: connection release on every exit path -/

/-- C2 counterexample: in `get_tasks`, when the query raises after the
connection has been acquired, the `except` path returns 500 without closing
the connection — the connection is acquired and not released, refuting the
claim that every exit path releases the acquired connection. -/
theorem c2_counterexample_query_exception_leaks :
    (get_tasks ⟨[], []⟩ 1 true true).2.acquired = true ∧
    (get_tasks ⟨[], []⟩ 1 true true).2.released = false :=
  ⟨rfl, rfl⟩

/-- C2 (amended): every handler that acquires a pooled connection releases
it on every path that does not raise an exception after acquisition —
`get_tasks`, `get_stats`, `login` and `health_check` when the query does not
raise, `create_task` when additionally the INSERT binds no `NULL` into a
non-null column, `update_task` when a body is present and binds no such
`NULL`, and `delete_task` always; but on an exception path after acquisition
(a raising query in `get_tasks`, `get_stats`, `health_check` or `login`) the
connection is not released. -/
theorem c2_release_on_non_exception_paths (st : Store) (uid tid today : Nat)
    (d : CreateData) (ud : UpdateData) (checkpw : String → String → Bool)
    (uname pwd : String) (c : Bool) (now : Nat) :
    ((get_tasks st uid c false).2.acquired = true →
      (get_tasks st uid c false).2.released = true) ∧
    (d.description ≠ some .null → d.priority ≠ some .null →
      (create_task st uid (some d) c false now).2.2.acquired = true →
      (create_task st uid (some d) c false now).2.2.released = true) ∧
    (ud.bindsNull = false →
      (update_task st uid tid (some ud) c now).2.2.acquired = true →
      (update_task st uid tid (some ud) c now).2.2.released = true) ∧
    ((delete_task st uid tid c).2.2.acquired = true →
      (delete_task st uid tid c).2.2.released = true) ∧
    ((get_stats st uid today c false).2.acquired = true →
      (get_stats st uid today c false).2.released = true) ∧
    ((login st checkpw uname pwd c false).2.acquired = true →
      (login st checkpw uname pwd c false).2.released = true) ∧
    ((health_check c false).2.acquired = true →
      (health_check c false).2.released = true) ∧
    ((get_tasks st uid true true).2.acquired = true ∧
      (get_tasks st uid true true).2.released = false) ∧
    (get_stats st uid today true true).2 = ConnUse.leaked ∧
    (health_check true true).2 = ConnUse.leaked ∧
    (pyStrip uname ≠ "" → pwd ≠ "" →
      (login st checkpw uname pwd true true).2 = ConnUse.leaked) := by
  refine ⟨?_, ?_, ?_, ?_, ?_, ?_, ?_, ⟨rfl, rfl⟩, rfl, rfl, ?_⟩
  · cases c <;> simp [get_tasks, ConnUse.noConn, ConnUse.closed]
  · intro hdesc hprio
    have hd : (d.description.getD (.str "")).toSql ≠ none := by
      cases hv : d.description with
      | none => simp [JStr.toSql]
      | some v =>
        cases v with
        | null => exact absurd hv hdesc
        | str s => simp [JStr.toSql]
    have hp : (d.priority.getD (.str "medium")).toSql ≠ none := by
      cases hv : d.priority with
      | none => simp [JStr.toSql]
      | some v =>
        cases v with
        | null => exact absurd hv hprio
        | str s => simp [JStr.toSql]
    cases c <;>
      simp only [create_task] <;>
      split <;>
      simp_all [ConnUse.noConn, ConnUse.closed, ConnUse.leaked] <;>
      rcases hd' : (d.description.getD (.str "")).toSql with _ | dv <;>
      rcases hp' : (d.priority.getD (.str "medium")).toSql with _ | pv <;>
      simp_all [ConnUse.closed, ConnUse.leaked]
  · intro hnull
    cases c <;>
      simp only [update_task] <;>
      split <;>
      simp_all [ConnUse.noConn, ConnUse.closed, ConnUse.leaked] <;>
      split <;>
      simp_all [ConnUse.closed, ConnUse.leaked] <;>
      split <;>
      simp_all [ConnUse.closed, ConnUse.leaked]
  · cases c <;>
      simp only [delete_task] <;>
      split <;>
      simp_all [ConnUse.noConn, ConnUse.closed, ConnUse.leaked] <;>
      split <;>
      simp_all [ConnUse.closed]
  · cases c <;> simp [get_stats, ConnUse.noConn, ConnUse.closed]
  · cases c
    · simp only [login]
      split <;> simp [ConnUse.noConn]
    · simp only [login]
      split
      · simp [ConnUse.noConn]
      · simp only [Bool.not_true, Bool.false_eq_true, if_false]
        split
        · split <;> simp [ConnUse.closed]
        · simp [ConnUse.closed]
  · cases c <;> simp [health_check, ConnUse.noConn, ConnUse.closed]
  · intro h1 h2
    simp [login, h1, h2, ConnUse.leaked]

/-- Witness for the amended C2 at concrete inputs. -/
theorem c2_release_on_non_exception_paths_witness :
    ((get_tasks ⟨[], []⟩ 1 true false).2.acquired = true →
      (get_tasks ⟨[], []⟩ 1 true false).2.released = true) ∧
    (({ title := some (.str "x") } : CreateData).description ≠ some .null →
      ({ title := some (.str "x") } : CreateData).priority ≠ some .null →
      (create_task ⟨[], []⟩ 1 (some { title := some (.str "x") }) true false
        3).2.2.acquired = true →
      (create_task ⟨[], []⟩ 1 (some { title := some (.str "x") }) true false
        3).2.2.released = true) ∧
    (({} : UpdateData).bindsNull = false →
      (update_task ⟨[], []⟩ 1 2 (some {}) true 3).2.2.acquired = true →
      (update_task ⟨[], []⟩ 1 2 (some {}) true 3).2.2.released = true) ∧
    ((delete_task ⟨[], []⟩ 1 2 true).2.2.acquired = true →
      (delete_task ⟨[], []⟩ 1 2 true).2.2.released = true) ∧
    ((get_stats ⟨[], []⟩ 1 10 true false).2.acquired = true →
      (get_stats ⟨[], []⟩ 1 10 true false).2.released = true) ∧
    ((login ⟨[], []⟩ (fun p h => p == h) "alice" "pw" true false).2.acquired
        = true →
      (login ⟨[], []⟩ (fun p h => p == h) "alice" "pw" true false).2.released
        = true) ∧
    ((health_check true false).2.acquired = true →
      (health_check true false).2.released = true) ∧
    ((get_tasks ⟨[], []⟩ 1 true true).2.acquired = true ∧
      (get_tasks ⟨[], []⟩ 1 true true).2.released = false) ∧
    (get_stats ⟨[], []⟩ 1 10 true true).2 = ConnUse.leaked ∧
    (health_check true true).2 = ConnUse.leaked ∧
    (pyStrip "alice" ≠ "" → "pw" ≠ "" →
      (login ⟨[], []⟩ (fun p h => p == h) "alice" "pw" true true).2 =
        ConnUse.leaked) :=
  c2_release_on_non_exception_paths ⟨[], []⟩ 1 2 10
    { title := some (.str "x") } {} (fun p h => p == h) "alice" "pw" true 3

/-! ## C8: login-failure indistinguishability -/

/-- C8: a login attempt with an existing username and a wrong password and a
login attempt with a nonexistent username produce the identical observable
outcome — the login page re-rendered with the generic flashed message
"Invalid username or password" — with no signal distinguishing which
credential was wrong. -/
theorem c8_login_failure_indistinguishable (st : Store)
    (checkpw : String → String → Bool) (u1 p1 u2 p2 : String) (usr : User)
    (h1 : findUser st (pyStrip u1) = some usr)
    (hp : checkpw p1 usr.password_hash = false)
    (h2 : findUser st (pyStrip u2) = none)
    (hne1 : pyStrip u1 ≠ "") (hpw1 : p1 ≠ "")
    (hne2 : pyStrip u2 ≠ "") (hpw2 : p2 ≠ "") :
    (login st checkpw u1 p1 true false).1 =
      (login st checkpw u2 p2 true false).1 ∧
    (login st checkpw u1 p1 true false).1 =
      .renderLogin (some ("Invalid username or password", "error")) := by
  have e1 : (login st checkpw u1 p1 true false).1 =
      .renderLogin (some ("Invalid username or password", "error")) := by
    simp [login, h1, hp, hne1, hpw1]
  have e2 : (login st checkpw u2 p2 true false).1 =
      .renderLogin (some ("Invalid username or password", "error")) := by
    simp [login, h2, hne2, hpw2]
  exact ⟨e1.trans e2.symm, e1⟩

/-- Witness for C8 at a concrete input: a one-user store, a password-check
function that rejects the attempted pair, an existing username "alice" and a
nonexistent username "bob". -/
theorem c8_login_failure_indistinguishable_witness :
    (login ⟨[⟨1, "alice", "h0", "A", "L"⟩], []⟩ (fun p h => p == h) "alice"
        "wrong" true false).1 =
      (login ⟨[⟨1, "alice", "h0", "A", "L"⟩], []⟩ (fun p h => p == h) "bob"
        "demo123" true false).1 ∧
    (login ⟨[⟨1, "alice", "h0", "A", "L"⟩], []⟩ (fun p h => p == h) "alice"
        "wrong" true false).1 =
      .renderLogin (some ("Invalid username or password", "error")) :=
  c8_login_failure_indistinguishable ⟨[⟨1, "alice", "h0", "A", "L"⟩], []⟩
    (fun p h => p == h) "alice" "wrong" "bob" "demo123"
    ⟨1, "alice", "h0", "A", "L"⟩ (by decide) (by decide) (by decide)
    (by decide) (by decide) (by decide) (by decide)

/-! ## C6: overdue count -/

/-- C6: for every user and store state, the stats `overdue_count` counts
exactly the user's tasks whose `due_date` is present and strictly before the
current date and whose status is not `"completed"`; in particular, adding a
task with status `"completed"` never changes the overdue count, regardless of
its due date. -/
theorem c6_overdue_count_exact (st : Store) (uid today : Nat) :
    ∃ s, (get_stats st uid today true false).1 = .okStats s ∧
      s.overdue_count = st.tasks.countP (fun t =>
        t.user_id == uid && t.due_date.elim false (fun d => decide (d < today))
          && !(t.status == "completed")) ∧
      (∀ t : Task,
        (t.user_id == uid
            && t.due_date.elim false (fun d => decide (d < today))
            && !(t.status == "completed")) = true ↔
          (t.user_id = uid ∧ (∃ d, t.due_date = some d ∧ d < today) ∧
            t.status ≠ "completed")) ∧
      (∀ ct : Task, ct.status = "completed" →
        overdueCount ⟨st.users, ct :: st.tasks⟩ uid today =
          overdueCount st uid today) ∧
      s.overdue_count = overdueCount st uid today := by
  refine ⟨_, rfl, ?_, ?_, ?_, rfl⟩
  · show overdueCount st uid today = _
    unfold overdueCount tasksOf
    rw [← List.countP_eq_length_filter, List.countP_filter]
    apply List.countP_congr
    intro t _
    cases hd : t.due_date <;> simp [hd, Option.elim] <;> tauto
  · intro t
    cases hd : t.due_date <;> simp [hd, Option.elim] <;> tauto
  · intro ct hct
    have hp2 : ((match ct.due_date with
        | some d => decide (d < today)
        | none => false) && (ct.status != "completed")) = false := by
      simp [hct]
    by_cases hcu : (ct.user_id == uid) = true
    · simp [overdueCount, tasksOf, List.filter_cons, hcu, hp2]
    · rw [Bool.not_eq_true] at hcu
      simp [overdueCount, tasksOf, List.filter_cons, hcu]

/-- Witness for C6 at a concrete input: a store whose single task is
completed and past due. -/
theorem c6_overdue_count_exact_witness :
    ∃ s, (get_stats ⟨[], [⟨1, 1, "t", "", "completed", "medium", some 0, 0,
        0⟩]⟩ 1 10 true false).1 = .okStats s ∧
      s.overdue_count =
        [Task.mk 1 1 "t" "" "completed" "medium" (some 0) 0 0].countP (fun t =>
          t.user_id == 1 && t.due_date.elim false (fun d => decide (d < 10))
            && !(t.status == "completed")) ∧
      (∀ t : Task,
        (t.user_id == 1 && t.due_date.elim false (fun d => decide (d < 10))
            && !(t.status == "completed")) = true ↔
          (t.user_id = 1 ∧ (∃ d, t.due_date = some d ∧ d < 10) ∧
            t.status ≠ "completed")) ∧
      (∀ ct : Task, ct.status = "completed" →
        overdueCount ⟨[], ct :: [⟨1, 1, "t", "", "completed", "medium", some 0,
            0, 0⟩]⟩ 1 10 =
          overdueCount ⟨[], [⟨1, 1, "t", "", "completed", "medium", some 0, 0,
            0⟩]⟩ 1 10) ∧
      s.overdue_count =
        overdueCount ⟨[], [⟨1, 1, "t", "", "completed", "medium", some 0, 0,
          0⟩]⟩ 1 10 :=
  c6_overdue_count_exact ⟨[], [⟨1, 1, "t", "", "completed", "medium", some 0,
    0, 0⟩]⟩ 1 10

/-! ## C9: create-task defaults and round-trip -/

/-- C9: for every create request with a non-empty title whose `description`
and `priority` keys are absent and whose `due_date` is absent or the empty
string, the handler returns 201 and the stored row has description `""`,
priority `"medium"` and a null due date; a subsequent task-list read for the
same (existing) user returns a row with exactly those values. -/
theorem c9_create_defaults_roundtrip (st : Store) (uid now : Nat) (s : String)
    (du : Option JDate) (usr : User)
    (hs : s ≠ "") (hdu : du = none ∨ du = some .emptyStr)
    (hu : usr ∈ st.users) (hid : usr.id = uid) :
    ∃ tid,
      (create_task st uid (some ⟨some (.str s), none, none, du⟩) true false
        now).1 = .created tid "Task created successfully" s ∧
      ∃ v ∈ list_for_user
          (create_task st uid (some ⟨some (.str s), none, none, du⟩) true false
            now).2.1 uid,
        v.id = tid ∧ v.title = s ∧ v.description = "" ∧
        v.priority = "medium" ∧ v.due_date = none := by
  have htt : titleTruthy (some (.str s)) = true := by
    simp [titleTruthy, hs]
  have hdue : (match du with
      | none => (none : Option Nat)
      | some v => v.val) = none := by
    rcases hdu with h | h <;> simp [h, JDate.val]
  refine ⟨freshId st, ?_, ?_⟩
  · simp [create_task, htt, JStr.toSql, hdue]
  · refine ⟨mkView ⟨freshId st, uid, s, "", "pending", "medium", none, now,
      now⟩ usr, ?_, rfl, rfl, rfl, rfl, rfl⟩
    have hst : (create_task st uid (some ⟨some (.str s), none, none, du⟩) true
        false now).2.1 =
        { st with tasks := st.tasks ++
            [⟨freshId st, uid, s, "", "pending", "medium", none, now, now⟩] } := by
      simp [create_task, htt, JStr.toSql, hdue]
    rw [hst]
    unfold list_for_user tasksOf
    rw [List.mem_mergeSort, List.mem_flatMap]
    refine ⟨⟨freshId st, uid, s, "", "pending", "medium", none, now, now⟩,
      ?_, ?_⟩
    · rw [List.mem_filter]
      exact ⟨List.mem_append_right _ (by simp), by simp⟩
    · exact List.mem_map_of_mem _ (List.mem_filter.mpr ⟨hu, by simp [hid]⟩)

/-- Witness for C9 at a concrete input: user 1 creates "Buy milk" with all
optional fields omitted. -/
theorem c9_create_defaults_roundtrip_witness :
    ∃ tid,
      (create_task ⟨[⟨1, "alice", "h0", "A", "L"⟩], []⟩ 1
        (some ⟨some (.str "Buy milk"), none, none, none⟩) true false 5).1 =
        .created tid "Task created successfully" "Buy milk" ∧
      ∃ v ∈ list_for_user
          (create_task ⟨[⟨1, "alice", "h0", "A", "L"⟩], []⟩ 1
            (some ⟨some (.str "Buy milk"), none, none, none⟩) true false
            5).2.1 1,
        v.id = tid ∧ v.title = "Buy milk" ∧ v.description = "" ∧
        v.priority = "medium" ∧ v.due_date = none :=
  c9_create_defaults_roundtrip ⟨[⟨1, "alice", "h0", "A", "L"⟩], []⟩ 1 5
    "Buy milk" none ⟨1, "alice", "h0", "A", "L"⟩ (by decide) (Or.inl rfl)
    (by simp) rfl

/-! ## C1: per-user ownership isolation -/

/-- Two task rows of a store with `Nodup` ids that share an id are equal. -/
theorem task_eq_of_id_eq {st : Store} (huniq : (st.tasks.map Task.id).Nodup)
    {x t : Task} (hx : x ∈ st.tasks) (ht : t ∈ st.tasks) (h : x.id = t.id) :
    x = t :=
  List.inj_on_of_nodup_map huniq hx ht h

/-- In a store with `Nodup` task ids, no row matches the id of a task owned
by user `A` together with a different user `B`. -/
theorem no_match_of_other_owner {st : Store}
    (huniq : (st.tasks.map Task.id).Nodup) {t : Task} {A B : Nat}
    (ht : t ∈ st.tasks) (hA : t.user_id = A) (hAB : A ≠ B) :
    ∀ x ∈ st.tasks, ¬(x.id = t.id ∧ x.user_id = B) := by
  intro x hx ⟨hxid, hxu⟩
  have hxt : x = t := task_eq_of_id_eq huniq hx ht hxid
  subst hxt
  exact hAB (hA.symm.trans hxu)

/-- C1: in a store with unique task ids, for distinct users `A ≠ B` and a
task `t` owned by `A`: the task-list response for `B`'s session contains no
row with `t`'s id; an update request by `B` naming `t`'s id returns 404 and
leaves the store (hence `t`) unchanged, whatever the body; and a delete
request by `B` naming `t`'s id returns 404 and leaves the store unchanged. -/
theorem c1_ownership_isolation (st : Store) (A B : Nat) (t : Task)
    (huniq : (st.tasks.map Task.id).Nodup)
    (ht : t ∈ st.tasks) (hA : t.user_id = A) (hAB : A ≠ B) :
    (∀ v ∈ list_for_user st B, v.id ≠ t.id) ∧
    (∀ (data : Option UpdateData) (now : Nat),
      (update_task st B t.id data true now).1 =
        .clientErr 404 "Task not found" ∧
      (update_task st B t.id data true now).2.1 = st) ∧
    ((delete_task st B t.id true).1 = .clientErr 404 "Task not found" ∧
      (delete_task st B t.id true).2.1 = st) := by
  have hno := no_match_of_other_owner huniq ht hA hAB
  refine ⟨?_, ?_, ?_⟩
  · intro v hv
    unfold list_for_user tasksOf at hv
    rw [List.mem_mergeSort, List.mem_flatMap] at hv
    obtain ⟨a, ha, hva⟩ := hv
    rw [List.mem_filter] at ha
    obtain ⟨hamem, hauser⟩ := ha
    rw [List.mem_map] at hva
    obtain ⟨u, _, hvu⟩ := hva
    intro hvid
    have haid : a.id = t.id := by
      rw [← hvid, ← hvu]
      rfl
    exact hno a hamem ⟨haid, by simpa using hauser⟩
  · intro data now
    have hany : (st.tasks.any (fun x => x.id == t.id && x.user_id == B))
        = false := by
      rw [← Bool.not_eq_true]
      intro hc
      obtain ⟨x, hx, hxp⟩ := List.any_eq_true.mp hc
      simp only [Bool.and_eq_true, beq_iff_eq] at hxp
      exact hno x hx hxp
    simp [update_task, hany]
  · have hrc : (st.tasks.filter (fun x => x.id == t.id && x.user_id == B))
        = [] := by
      rw [List.filter_eq_nil_iff]
      intro x hx hc
      simp only [Bool.and_eq_true, beq_iff_eq] at hc
      exact hno x hx hc
    have hkeep : (st.tasks.filter (fun x => !(x.id == t.id && x.user_id == B)))
        = st.tasks := by
      rw [List.filter_eq_self]
      intro x hx
      rw [Bool.not_eq_eq_eq_not, Bool.not_true, ← Bool.not_eq_true]
      intro hc
      simp only [Bool.and_eq_true, beq_iff_eq] at hc
      exact hno x hx hc
    constructor
    · simp [delete_task, hrc]
    · have hres : (delete_task st B t.id true).2.1 =
          { users := st.users, tasks := st.tasks.filter
              (fun x => !(x.id == t.id && x.user_id == B)) } := by
        simp only [delete_task, Bool.not_true, Bool.false_eq_true, if_false]
        split <;> rfl
      rw [hres, hkeep]

/-- Witness for C1 at a concrete input: a two-user store where task 3 belongs
to user 1 and the session user is user 2. -/
theorem c1_ownership_isolation_witness :
    (∀ v ∈ list_for_user ⟨[⟨1, "alice", "h0", "A", "L"⟩],
        [⟨3, 1, "t", "", "pending", "medium", none, 0, 0⟩]⟩ 2,
      v.id ≠ (Task.mk 3 1 "t" "" "pending" "medium" none 0 0).id) ∧
    (∀ (data : Option UpdateData) (now : Nat),
      (update_task ⟨[⟨1, "alice", "h0", "A", "L"⟩],
          [⟨3, 1, "t", "", "pending", "medium", none, 0, 0⟩]⟩ 2
          (Task.mk 3 1 "t" "" "pending" "medium" none 0 0).id data true
          now).1 = .clientErr 404 "Task not found" ∧
      (update_task ⟨[⟨1, "alice", "h0", "A", "L"⟩],
          [⟨3, 1, "t", "", "pending", "medium", none, 0, 0⟩]⟩ 2
          (Task.mk 3 1 "t" "" "pending" "medium" none 0 0).id data true
          now).2.1 =
        ⟨[⟨1, "alice", "h0", "A", "L"⟩],
          [⟨3, 1, "t", "", "pending", "medium", none, 0, 0⟩]⟩) ∧
    ((delete_task ⟨[⟨1, "alice", "h0", "A", "L"⟩],
        [⟨3, 1, "t", "", "pending", "medium", none, 0, 0⟩]⟩ 2
        (Task.mk 3 1 "t" "" "pending" "medium" none 0 0).id true).1 =
      .clientErr 404 "Task not found" ∧
    (delete_task ⟨[⟨1, "alice", "h0", "A", "L"⟩],
        [⟨3, 1, "t", "", "pending", "medium", none, 0, 0⟩]⟩ 2
        (Task.mk 3 1 "t" "" "pending" "medium" none 0 0).id true).2.1 =
      ⟨[⟨1, "alice", "h0", "A", "L"⟩],
        [⟨3, 1, "t", "", "pending", "medium", none, 0, 0⟩]⟩) :=
  c1_ownership_isolation ⟨[⟨1, "alice", "h0", "A", "L"⟩],
      [⟨3, 1, "t", "", "pending", "medium", none, 0, 0⟩]⟩ 1 2
    ⟨3, 1, "t", "", "pending", "medium", none, 0, 0⟩ (by decide) (by simp)
    rfl (by decide)

/-! ## C3: partial-patch semantics of update -/

/-- A body that binds a `NULL` into a non-null column has at least one key
present, so `update_fields` is not empty. -/
theorem isEmpty_false_of_bindsNull {d : UpdateData} (h : d.bindsNull = true) :
    d.isEmpty = false := by
  unfold UpdateData.bindsNull at h
  unfold UpdateData.isEmpty
  rcases d with ⟨dt, dd, ds, dp, du⟩
  simp only [Bool.or_eq_true, beq_iff_eq] at h
  rcases h with ((h | h) | h) | h <;> subst h <;> simp

/-- The store an owned `PUT /api/tasks/<id>` leaves behind, by case on the
request body. -/
theorem update_store_characterization (st : Store) (uid tid now : Nat)
    (d : UpdateData)
    (hany : (st.tasks.any (fun x => x.id == tid && x.user_id == uid)) = true) :
    (update_task st uid tid (some d) true now).2.1 =
      if d.isEmpty = true then st
      else if d.bindsNull = true then st
      else { users := st.users, tasks := st.tasks.map (fun x =>
          if x.id == tid then applyFields d now x else x) } := by
  simp only [update_task, hany, Bool.not_true, Bool.false_eq_true, if_false]
  split
  · rfl
  · split <;> rfl

/-- C3: for an owned task (unique ids), (i) an update whose body has an empty
key set returns 200 and leaves the store unchanged; (ii) in the store the
update leaves behind, the row with the task's id keeps every field whose key
was absent from the body, and has a null `due_date` when the `due_date` key
was present with JSON `null` (and no non-nullable column was bound to null);
(iii) a body whose `title`, `description`, `status` or `priority` key is
present with JSON `null` makes the UPDATE statement fail — 500, store
unchanged — so those fields are never set to null. -/
theorem c3_partial_patch_update (st : Store) (uid tid now : Nat) (t : Task)
    (huniq : (st.tasks.map Task.id).Nodup) (ht : t ∈ st.tasks)
    (hid : t.id = tid) (hu : t.user_id = uid) :
    ((update_task st uid tid (some {}) true now).1 =
        .okMsg "Task updated successfully" ∧
      (update_task st uid tid (some {}) true now).2.1 = st) ∧
    (∀ (d : UpdateData) (t' : Task),
      t' ∈ (update_task st uid tid (some d) true now).2.1.tasks →
      t'.id = tid →
      (d.title = none → t'.title = t.title) ∧
      (d.description = none → t'.description = t.description) ∧
      (d.status = none → t'.status = t.status) ∧
      (d.priority = none → t'.priority = t.priority) ∧
      (d.due_date = none → t'.due_date = t.due_date) ∧
      (d.bindsNull = false → d.due_date = some .null → t'.due_date = none)) ∧
    (∀ d : UpdateData, d.bindsNull = true →
      (update_task st uid tid (some d) true now).1 =
        .serverErr "database error" ∧
      (update_task st uid tid (some d) true now).2.1 = st) := by
  have hany : (st.tasks.any (fun x => x.id == tid && x.user_id == uid))
      = true :=
    List.any_eq_true.mpr ⟨t, ht, by simp [hid, hu]⟩
  refine ⟨?_, ?_, ?_⟩
  · constructor <;> simp [update_task, hany, UpdateData.isEmpty]
  · intro d t' ht' htid
    rw [update_store_characterization st uid tid now d hany] at ht'
    by_cases hie : d.isEmpty = true
    · rw [if_pos hie] at ht'
      have hteq : t' = t :=
        task_eq_of_id_eq huniq ht' ht (htid.trans hid.symm)
      subst hteq
      refine ⟨fun _ => rfl, fun _ => rfl, fun _ => rfl, fun _ => rfl,
        fun _ => rfl, ?_⟩
      intro _ hdn
      unfold UpdateData.isEmpty at hie
      simp only [Bool.and_eq_true, beq_iff_eq] at hie
      rw [hie.2] at hdn
      cases hdn
    · rw [if_neg hie] at ht'
      by_cases hbn : d.bindsNull = true
      · rw [if_pos hbn] at ht'
        have hteq : t' = t :=
          task_eq_of_id_eq huniq ht' ht (htid.trans hid.symm)
        subst hteq
        refine ⟨fun _ => rfl, fun _ => rfl, fun _ => rfl, fun _ => rfl,
          fun _ => rfl, ?_⟩
        intro hbn' _
        rw [hbn] at hbn'
        cases hbn'
      · rw [if_neg hbn] at ht'
        rw [List.mem_map] at ht'
        obtain ⟨x, hx, hfx⟩ := ht'
        by_cases hxid : (x.id == tid) = true
        · rw [if_pos hxid] at hfx
          refine ⟨?_, ?_, ?_, ?_, ?_, ?_⟩
          · intro hnone
            rw [← hfx]
            have hxt : x = t :=
              task_eq_of_id_eq huniq hx ht (by rw [hid]; simpa using hxid)
            rw [hxt]
            simp [applyFields, hnone]
          · intro hnone
            rw [← hfx]
            have hxt : x = t :=
              task_eq_of_id_eq huniq hx ht (by rw [hid]; simpa using hxid)
            rw [hxt]
            simp [applyFields, hnone]
          · intro hnone
            rw [← hfx]
            have hxt : x = t :=
              task_eq_of_id_eq huniq hx ht (by rw [hid]; simpa using hxid)
            rw [hxt]
            simp [applyFields, hnone]
          · intro hnone
            rw [← hfx]
            have hxt : x = t :=
              task_eq_of_id_eq huniq hx ht (by rw [hid]; simpa using hxid)
            rw [hxt]
            simp [applyFields, hnone]
          · intro hnone
            rw [← hfx]
            have hxt : x = t :=
              task_eq_of_id_eq huniq hx ht (by rw [hid]; simpa using hxid)
            rw [hxt]
            simp [applyFields, hnone]
          · intro _ hdn
            rw [← hfx]
            simp [applyFields, hdn, JDate.val]
        · rw [if_neg hxid] at hfx
          exact absurd (by rw [hfx]; simp [htid]) hxid
  · intro d hbn
    constructor <;>
      simp [update_task, hany, isEmpty_false_of_bindsNull hbn, hbn]

/-- Witness for C3 at a concrete input: user 1's task 3 in a one-task
store. -/
theorem c3_partial_patch_update_witness :
    ((update_task ⟨[], [⟨3, 1, "t", "ds", "pending", "medium", some 9, 0, 0⟩]⟩
        1 3 (some {}) true 7).1 = .okMsg "Task updated successfully" ∧
      (update_task ⟨[], [⟨3, 1, "t", "ds", "pending", "medium", some 9, 0, 0⟩]⟩
        1 3 (some {}) true 7).2.1 =
        ⟨[], [⟨3, 1, "t", "ds", "pending", "medium", some 9, 0, 0⟩]⟩) ∧
    (∀ (d : UpdateData) (t' : Task),
      t' ∈ (update_task ⟨[], [⟨3, 1, "t", "ds", "pending", "medium", some 9, 0,
          0⟩]⟩ 1 3 (some d) true 7).2.1.tasks →
      t'.id = 3 →
      (d.title = none →
        t'.title = (Task.mk 3 1 "t" "ds" "pending" "medium" (some 9) 0 0).title) ∧
      (d.description = none → t'.description =
        (Task.mk 3 1 "t" "ds" "pending" "medium" (some 9) 0 0).description) ∧
      (d.status = none → t'.status =
        (Task.mk 3 1 "t" "ds" "pending" "medium" (some 9) 0 0).status) ∧
      (d.priority = none → t'.priority =
        (Task.mk 3 1 "t" "ds" "pending" "medium" (some 9) 0 0).priority) ∧
      (d.due_date = none → t'.due_date =
        (Task.mk 3 1 "t" "ds" "pending" "medium" (some 9) 0 0).due_date) ∧
      (d.bindsNull = false → d.due_date = some .null → t'.due_date = none)) ∧
    (∀ d : UpdateData, d.bindsNull = true →
      (update_task ⟨[], [⟨3, 1, "t", "ds", "pending", "medium", some 9, 0, 0⟩]⟩
        1 3 (some d) true 7).1 = .serverErr "database error" ∧
      (update_task ⟨[], [⟨3, 1, "t", "ds", "pending", "medium", some 9, 0, 0⟩]⟩
        1 3 (some d) true 7).2.1 =
        ⟨[], [⟨3, 1, "t", "ds", "pending", "medium", some 9, 0, 0⟩]⟩) :=
  c3_partial_patch_update
    ⟨[], [⟨3, 1, "t", "ds", "pending", "medium", some 9, 0, 0⟩]⟩ 1 3 7
    ⟨3, 1, "t", "ds", "pending", "medium", some 9, 0, 0⟩ (by decide) (by simp)
    rfl rfl

/-! ## C7: total_tasks equals sum of status_counts and the list length -/

/-- In a list with `Nodup` keys, filtering for the key of a member yields
exactly that member. -/
theorem filter_eq_singleton_of_nodup_key {α : Type} (f : α → Nat)
    (l : List α) (hn : (l.map f).Nodup) (u : α) (hu : u ∈ l) :
    l.filter (fun x => f x == f u) = [u] := by
  induction l with
  | nil => cases hu
  | cons a tl ih =>
    rw [List.map_cons, List.nodup_cons] at hn
    rcases List.mem_cons.mp hu with rfl | hu'
    · rw [List.filter_cons_of_pos (by simp)]
      have htl : tl.filter (fun x => f x == f u) = [] := by
        rw [List.filter_eq_nil_iff]
        intro x hx hc
        simp only [beq_iff_eq] at hc
        exact hn.1 (hc ▸ List.mem_map_of_mem f hx)
      rw [htl]
    · have hfa : (f a == f u) = false := by
        rw [← Bool.not_eq_true]
        intro hc
        rw [beq_iff_eq] at hc
        exact hn.1 (hc ▸ List.mem_map_of_mem f hu')
      rw [List.filter_cons_of_neg (by simp [hfa])]
      exact ih hn.2 hu'

/-- A `flatMap` whose function yields a singleton at every member preserves
length. -/
theorem length_flatMap_of_singletons {α β : Type} (l : List α)
    (g : α → List β) (h : ∀ t ∈ l, (g t).length = 1) :
    (l.flatMap g).length = l.length := by
  induction l with
  | nil => rfl
  | cons a tl ih =>
    rw [List.flatMap_cons, List.length_append,
      h a (List.mem_cons_self a tl),
      ih (fun t ht => h t (List.mem_cons_of_mem a ht)), List.length_cons]
    omega

/-- C7: for every user and store state satisfying the schema's integrity
constraints (unique user ids, and every task's `user_id` referencing an
existing user), the stats response has `total_tasks` equal to the sum of the
`status_counts` values, and equal to the number of rows the task-list
operation returns for that same user. -/
theorem c7_total_tasks_consistent (st : Store) (uid today : Nat)
    (husers : (st.users.map User.id).Nodup)
    (hfk : ∀ t ∈ st.tasks, ∃ u ∈ st.users, u.id = t.user_id) :
    ∃ s, (get_stats st uid today true false).1 = .okStats s ∧
      s.total_tasks = (s.status_counts.map Prod.snd).sum ∧
      s.total_tasks = (list_for_user st uid).length := by
  refine ⟨_, rfl, rfl, ?_⟩
  show ((statusCounts st uid).map Prod.snd).sum = _
  have hsum : ((statusCounts st uid).map Prod.snd).sum
      = (tasksOf st uid).length := by
    unfold statusCounts
    rw [List.map_map]
    have : (Prod.snd ∘ fun s => (s, ((tasksOf st uid).map Task.status).count s))
        = fun s => ((tasksOf st uid).map Task.status).count s := rfl
    rw [this, List.sum_map_count_dedup_eq_length, List.length_map]
  have hlen : (list_for_user st uid).length = (tasksOf st uid).length := by
    unfold list_for_user
    rw [List.length_mergeSort]
    apply length_flatMap_of_singletons
    intro t htmem
    have htall : t ∈ st.tasks := List.mem_of_mem_filter htmem
    obtain ⟨u, hu, huid⟩ := hfk t htall
    rw [List.length_map]
    have : st.users.filter (fun x => x.id == t.user_id) = [u] := by
      have := filter_eq_singleton_of_nodup_key User.id st.users husers u hu
      rwa [huid] at this
    rw [this]
    rfl
  rw [hsum, hlen]

/-- Witness for C7 at a concrete input: one user with two tasks of different
statuses. -/
theorem c7_total_tasks_consistent_witness :
    ∃ s, (get_stats ⟨[⟨1, "alice", "h0", "A", "L"⟩],
        [⟨1, 1, "a", "", "pending", "medium", none, 0, 0⟩,
         ⟨2, 1, "b", "", "completed", "high", some 3, 0, 1⟩]⟩ 1 10 true
        false).1 =
      .okStats s ∧
      s.total_tasks = (s.status_counts.map Prod.snd).sum ∧
      s.total_tasks = (list_for_user ⟨[⟨1, "alice", "h0", "A", "L"⟩],
        [⟨1, 1, "a", "", "pending", "medium", none, 0, 0⟩,
         ⟨2, 1, "b", "", "completed", "high", some 3, 0, 1⟩]⟩ 1).length :=
  c7_total_tasks_consistent ⟨[⟨1, "alice", "h0", "A", "L"⟩],
      [⟨1, 1, "a", "", "pending", "medium", none, 0, 0⟩,
       ⟨2, 1, "b", "", "completed", "high", some 3, 0, 1⟩]⟩ 1 10
    (by decide) (by decide)
